import Mathlib

/-!
Shallow embedding of the xpdAcq excerpt (redisdict.py, tools.py,
beamtimeSetup.py) and proofs about the behaviour its specification claims.

Python dictionaries are embedded as association lists (`List (String × α)`)
with first-match lookup; insertion updates an existing key in place and
appends a fresh key at the end, matching CPython's insertion-order
semantics.  Machine integers are `Int`, exceptions are an explicit error
type threaded through `Except`.
-/

set_option autoImplicit false

namespace Xpdacq

/-- Python exception kinds raised by the embedded code. -/
inductive PyErr where
  | nameError (n : String)
  | typeError
  | keyError
  | indexError
  | valueError
  | attrError
  | xpdAcqError
  | runtimeError
  | fileExistsError
  | notImplError
  | systemExit
  deriving DecidableEq, Repr

section AssocList

variable {α : Type}

/-- Lookup in a Python dict embedded as an association list (first match). -/
def alGet (m : List (String × α)) (k : String) : Option α :=
  match m with
  | [] => none
  | (k', v) :: rest => if k' = k then some v else alGet rest k

/-- Python `d[k] = v`: update an existing key in place, else append at the
end (CPython dicts preserve insertion order). -/
def alSet (m : List (String × α)) (k : String) (v : α) : List (String × α) :=
  match m with
  | [] => [(k, v)]
  | (k', v') :: rest =>
    if k' = k then (k', v) :: rest else (k', v') :: alSet rest k v

/-- Python `del d[k]` / `d.pop(k)` removal: drop the entry with key `k`. -/
def alRemove (m : List (String × α)) (k : String) : List (String × α) :=
  match m with
  | [] => []
  | (k', v') :: rest =>
    if k' = k then rest else (k', v') :: alRemove rest k

/-- Membership test `k in d`. -/
def alHasKey (m : List (String × α)) (k : String) : Bool :=
  (alGet m k).isSome

end AssocList

/-- Parsed YAML / Python values, as produced by `yaml.unsafe_load`. -/
inductive Yaml where
  | null
  | bool (b : Bool)
  | int (n : Int)
  | str (s : String)
  | list (xs : List Yaml)
  | map (kvs : List (String × Yaml))

/-! ## redisdict.py -/

/-- Names bound at module level in `redisdict.py`.  The module imports
`abc`, `os`, `tempfile`, `ChainMap`, `json` and `redis`; the name
`yaml` is never imported, although `RedisChainMap.to_yaml` and
`RedisChainMap.from_yaml` both refer to it. -/
def redisdictModuleNames : List String :=
  ["abc", "os", "tempfile", "ChainMap", "json", "redis"]

/-- Evaluating a bare name in the module namespace of `redisdict.py`:
an unbound name raises `NameError`. -/
def resolveRedisdictName (n : String) : Except PyErr Unit :=
  if n ∈ redisdictModuleNames then .ok () else .error (.nameError n)

/-- `RedisDict` (redisdict.py line 96): a `dict` subclass through the
`_RedisDictLike` mixin.  `data` is the underlying dict contents,
`flushCount` counts the calls made to the (stubbed, inert) `flush`
method, which is the observable the spec talks about. -/
structure RedisDict where
  data : List (String × Yaml)
  flushCount : Nat

namespace RedisDict

/-- `_RedisDictLike.flush` (line 84): the body is a stub (`...`); the model
records the call so that flush-count claims can be stated. -/
def flush (d : RedisDict) : RedisDict :=
  { d with flushCount := d.flushCount + 1 }

/-- `__setitem__` (line 46): `super().__setitem__` is the C-level
`dict.__setitem__`, then one `flush`. -/
def setitem (d : RedisDict) (k : String) (v : Yaml) : RedisDict :=
  flush { d with data := alSet d.data k v }

/-- `__delitem__` (line 51): `dict.__delitem__` raises `KeyError` for a
missing key (before any flush); otherwise remove, then one `flush`. -/
def delitem (d : RedisDict) (k : String) : Except PyErr RedisDict :=
  if alHasKey d.data k then
    .ok (flush { d with data := alRemove d.data k })
  else
    .error .keyError

/-- `clear` (line 56): `dict.clear`, then one `flush`. -/
def clear (d : RedisDict) : RedisDict :=
  flush { d with data := [] }

/-- `copy` (line 61): unconditionally `raise NotImplementedError`. -/
def copy (_ : RedisDict) : Except PyErr RedisDict :=
  .error .notImplError

/-- `pop` (line 64): `dict.pop(key)` raises `KeyError` for a missing key
(before any flush); otherwise returns the value, then one `flush`. -/
def pop (d : RedisDict) (k : String) : Except PyErr (Yaml × RedisDict) :=
  match alGet d.data k with
  | some v => .ok (v, flush { d with data := alRemove d.data k })
  | none => .error .keyError

/-- `popitem` (line 69): `dict.popitem` removes the most recently inserted
entry (LIFO) and raises `KeyError` on an empty dict; then one `flush`. -/
def popitem (d : RedisDict) : Except PyErr ((String × Yaml) × RedisDict) :=
  match d.data.getLast? with
  | some kv => .ok (kv, flush { d with data := d.data.dropLast })
  | none => .error .keyError

/-- `update` (line 74): for a `dict` subclass, `super().update` is the
C-level `dict.update`, which writes directly into the dict storage and
does not dispatch to the overridden `__setitem__`; then one `flush`.
The argument is the assigned key/value pairs in iteration order. -/
def update (d : RedisDict) (kvs : List (String × Yaml)) : RedisDict :=
  flush { d with data := kvs.foldl (fun m kv => alSet m kv.1 kv.2) d.data }

/-- `setdefault` (line 79): the C-level `dict.setdefault` (no dispatch to
the overridden `__setitem__`), then one `flush`. -/
def setdefault (d : RedisDict) (k : String) (v : Yaml) :
    Yaml × RedisDict :=
  match alGet d.data k with
  | some w => (w, flush d)
  | none => (v, flush { d with data := d.data ++ [(k, v)] })

end RedisDict

/-- `RedisChainMap` (redisdict.py line 109): a `ChainMap` subclass through
the `_RedisDictLike` mixin.  `maps` is `self.maps`, the list of layers
(each a plain dict); `flushCount` counts `flush` calls. -/
structure RedisChainMap where
  maps : List (List (String × Yaml))
  flushCount : Nat

namespace RedisChainMap

/-- `_RedisDictLike.flush` (line 84), as for `RedisDict`. -/
def flush (c : RedisChainMap) : RedisChainMap :=
  { c with flushCount := c.flushCount + 1 }

/-- `ChainMap.__init__` layer normalization: `self.maps = list(maps) or
[{}]`, so zero argument maps become one empty layer. -/
def initMaps (ms : List (List (String × Yaml))) :
    List (List (String × Yaml)) :=
  if ms.isEmpty then [[]] else ms

/-- `ChainMap.__getitem__` semantics: first-match-wins lookup across the
layers, in order. -/
def getval (c : RedisChainMap) (k : String) : Option Yaml :=
  go c.maps k
where
  go : List (List (String × Yaml)) → String → Option Yaml
    | [], _ => none
    | m :: rest, k =>
      match alGet m k with
      | some v => some v
      | none => go rest k

/-- `__setitem__` (line 46) for the chain map: `super().__setitem__` is
`ChainMap.__setitem__`, i.e. `self.maps[0][key] = value` (`IndexError`
on an empty layer list), then one `flush`. -/
def setitem (c : RedisChainMap) (k : String) (v : Yaml) :
    Except PyErr RedisChainMap :=
  match c.maps with
  | [] => .error .indexError
  | m :: rest => .ok (flush { c with maps := alSet m k v :: rest })

/-- `__delitem__` (line 51): `ChainMap.__delitem__` deletes from
`self.maps[0]` only, raising `KeyError` if the key is not in the first
layer; then one `flush`. -/
def delitem (c : RedisChainMap) (k : String) : Except PyErr RedisChainMap :=
  match c.maps with
  | [] => .error .indexError
  | m :: rest =>
    if alHasKey m k then
      .ok (flush { c with maps := alRemove m k :: rest })
    else
      .error .keyError

/-- `clear` (line 56): `ChainMap.clear` clears `self.maps[0]`, leaving the
other layers intact; then one `flush`. -/
def clear (c : RedisChainMap) : Except PyErr RedisChainMap :=
  match c.maps with
  | [] => .error .indexError
  | _ :: rest => .ok (flush { c with maps := [] :: rest })

/-- `copy` (line 61): unconditionally `raise NotImplementedError`. -/
def copy (_ : RedisChainMap) : Except PyErr RedisChainMap :=
  .error .notImplError

/-- `pop` (line 64): `ChainMap.pop` pops from `self.maps[0]` only,
raising `KeyError` if the key is not in the first layer; then one
`flush`. -/
def pop (c : RedisChainMap) (k : String) :
    Except PyErr (Yaml × RedisChainMap) :=
  match c.maps with
  | [] => .error .indexError
  | m :: rest =>
    match alGet m k with
    | some v => .ok (v, flush { c with maps := alRemove m k :: rest })
    | none => .error .keyError

/-- `popitem` (line 69): `ChainMap.popitem` pops the most recently
inserted entry of `self.maps[0]`, raising `KeyError` when that layer is
empty; then one `flush`. -/
def popitem (c : RedisChainMap) :
    Except PyErr ((String × Yaml) × RedisChainMap) :=
  match c.maps with
  | [] => .error .indexError
  | m :: rest =>
    match m.getLast? with
    | some kv => .ok (kv, flush { c with maps := m.dropLast :: rest })
    | none => .error .keyError

/-- `update` (line 74): `ChainMap` defines no `update`, so
`super().update` resolves to `collections.abc.MutableMapping.update`,
whose body assigns `self[key] = value` for each pair — dispatching to the
overridden, flushing `__setitem__` above — after which
`_RedisDictLike.update` flushes once more.  The argument is the assigned
pairs in iteration order. -/
def update (c : RedisChainMap) (kvs : List (String × Yaml)) :
    Except PyErr RedisChainMap := do
  let c' ← kvs.foldlM (fun acc kv => acc.setitem kv.1 kv.2) c
  .ok c'.flush

/-- `setdefault` (line 79): `ChainMap` defines no `setdefault`, so
`super().setdefault` is `collections.abc.MutableMapping.setdefault`:
look the key up across all layers; when missing, assign the default via
the overridden, flushing `__setitem__`; finally `_RedisDictLike.setdefault`
flushes once more. -/
def setdefault (c : RedisChainMap) (k : String) (v : Yaml) :
    Except PyErr (Yaml × RedisChainMap) :=
  match c.getval k with
  | some w => .ok (w, c.flush)
  | none => do
    let c' ← c.setitem k v
    .ok (v, c'.flush)

/-- Body of `RedisChainMap.from_yaml` (lines 117-126) after the name
`yaml` has been resolved, acting on the parsed document: `None` becomes
an empty layer list, a non-list document raises `TypeError`, and a list
is passed to the constructor (`cls(*maps)`), whose `ChainMap.__init__`
normalizes an empty layer list to a single empty layer.  List elements
are read as mappings (the documented on-disk shape). -/
def fromYamlLayers (doc : Yaml) : Except PyErr (List (List (String × Yaml))) :=
  match doc with
  | .null => .ok (initMaps [])
  | .list xs => .ok (initMaps (xs.map asKvs))
  | _ => .error .typeError
where
  asKvs : Yaml → List (String × Yaml)
    | .map kvs => kvs
    | _ => []

/-- `RedisChainMap.from_yaml` (line 115) as written in the module: the
first statement evaluates `yaml.unsafe_load(f)`, which begins by
resolving the bare name `yaml` in the module namespace of
`redisdict.py`; the input is abstracted by its parsed document. -/
def from_yaml (doc : Yaml) : Except PyErr (List (List (String × Yaml))) := do
  resolveRedisdictName "yaml"
  fromYamlLayers doc

end RedisChainMap

/-! ## tools.py -/

mutual
/-- Python values stored in the (possibly nested) dictionaries that
`regularize_dict_key` (tools.py line 16) operates on: either a non-dict
leaf or a nested dict. -/
inductive PyObj where
  | leaf (n : Int)
  | dict (entries : PyEntries)

/-- Entries of an embedded Python dict, in insertion order. -/
inductive PyEntries where
  | nil
  | cons (k : String) (v : PyObj) (rest : PyEntries)
end

namespace PyEntries

/-- Python `d.pop(k)` removal on the entry list: drop the entry keyed `k`
(dict keys are unique, so the first occurrence). -/
def remove : PyEntries → String → PyEntries
  | .nil, _ => .nil
  | .cons k v rest, key =>
    if k = key then rest else .cons k v (remove rest key)

/-- Python `d[k] = v` on the entry list: overwrite in place when `k` is
present, else append at the end. -/
def set : PyEntries → String → PyObj → PyEntries
  | .nil, key, val => .cons key val .nil
  | .cons k v rest, key, val =>
    if k = key then .cons k val rest else .cons k v (set rest key val)

/-- Concatenation of entry lists. -/
def append : PyEntries → PyEntries → PyEntries
  | .nil, es => es
  | .cons k v rest, es => .cons k v (append rest es)

/-- Keys of the entry list, in order. -/
def keys : PyEntries → List String
  | .nil => []
  | .cons k _ rest => k :: keys rest

end PyEntries

/-- Python `k.replace(target_chr, replace_chr)` for the single-character
target and replacement the function's docstring stipulates. -/
def replaceStr (s : String) (t r : Char) : String :=
  String.mk (s.data.map fun c => if c = t then r else c)

mutual
/-- Effect of `regularize_dict_key` on a value: a non-dict leaf is left
alone (tools.py line 33 renames only the key), a nested dict is
regularized recursively (line 32). -/
def regValue (t r : Char) : PyObj → PyObj
  | .leaf n => .leaf n
  | .dict es => .dict (regLoop t r es es)

/-- The `for k, v in input_dict.items()` loop of `regularize_dict_key`
(tools.py lines 28-35).  `work` is the live dict being mutated and the
second argument the remaining items being iterated (the items at loop
entry).  Each step performs `input_dict[clean_k] = input_dict.pop(k)`,
with the nested value regularized in place by the recursive call.
The model iterates the items present at loop entry and stores the
snapshot value of each entry, which coincides with the live value as
long as no earlier iteration has written that same key (true whenever no
two keys of the dict collide after cleaning). -/
def regLoop (t r : Char) (work : PyEntries) : PyEntries → PyEntries
  | .nil => work
  | .cons k v rest =>
    regLoop t r ((work.remove k).set (replaceStr k t r) (regValue t r v)) rest
end

/-- `regularize_dict_key` (tools.py line 16) applied to a dict's entries:
run the rename loop over the items present at entry, starting from the
dict itself. -/
def regularize_dict_key (t r : Char) (es : PyEntries) : PyEntries :=
  regLoop t r es es

/-- True when a character list has pairwise distinct elements; used to
state the dict invariant that keys are unique. -/
def listNodup : List String → Bool
  | [] => true
  | x :: xs => !(xs.contains x) && listNodup xs

mutual
/-- Dict well-formedness: keys unique at every nesting depth (an
invariant of real Python dicts). -/
def wfObj : PyObj → Bool
  | .leaf _ => true
  | .dict es => listNodup es.keys && wfEnts es

/-- Entry-list counterpart of `wfObj`, checking every nested value. -/
def wfEnts : PyEntries → Bool
  | .nil => true
  | .cons _ v rest => wfObj v && wfEnts rest
end

mutual
/-- No key at any nesting depth contains the target character `t`. -/
def noTgtObj (t : Char) : PyObj → Bool
  | .leaf _ => true
  | .dict es => noTgtEnts t es

/-- Entry-list counterpart of `noTgtObj`. -/
def noTgtEnts (t : Char) : PyEntries → Bool
  | .nil => true
  | .cons k v rest =>
    !(k.data.contains t) && noTgtObj t v && noTgtEnts t rest
end

/-! ## beamtimeSetup.py — helpers over parsed YAML documents -/

/-- Python substring membership `pat in s` for strings. -/
def strContainsSub (s pat : String) : Bool :=
  go s.data
where
  go : List Char → Bool
    | [] => pat.data.isEmpty
    | c :: rest => pat.data.isPrefixOf (c :: rest) || go rest

/-- Python `key in data`: mapping key membership for dicts, element
equality for lists, substring search for strings, `TypeError` for
non-container values. -/
def yamlContains (d : Yaml) (k : String) : Except PyErr Bool :=
  match d with
  | .map kvs => .ok (alHasKey kvs k)
  | .list xs => .ok (xs.any fun y => match y with | .str s => s = k | _ => false)
  | .str s => .ok (strContainsSub s k)
  | _ => .error .typeError

/-- Python subscript `data[k]` with a string key: mapping lookup raising
`KeyError` when absent, `TypeError` on values that do not support string
subscripts. -/
def yamlGetKey (d : Yaml) (k : String) : Except PyErr Yaml :=
  match d with
  | .map kvs =>
    match alGet kvs k with
    | some v => .ok v
    | none => .error .keyError
  | _ => .error .typeError

mutual
/-- Structural equality of parsed YAML values, used for the keys of the
known-UID registry (Python `==` on the parsed scalars/containers). -/
def yamlBeq : Yaml → Yaml → Bool
  | .null, .null => true
  | .bool a, .bool b => a = b
  | .int a, .int b => a = b
  | .str a, .str b => a = b
  | .list xs, .list ys => yamlListBeq xs ys
  | .map xs, .map ys => yamlKvsBeq xs ys
  | _, _ => false

/-- List counterpart of `yamlBeq`. -/
def yamlListBeq : List Yaml → List Yaml → Bool
  | [], [] => true
  | x :: xs, y :: ys => yamlBeq x y && yamlListBeq xs ys
  | _, _ => false

/-- Key-value-list counterpart of `yamlBeq`. -/
def yamlKvsBeq : List (String × Yaml) → List (String × Yaml) → Bool
  | [], [] => true
  | (k1, v1) :: xs, (k2, v2) :: ys =>
    k1 = k2 && yamlBeq v1 v2 && yamlKvsBeq xs ys
  | _, _ => false
end

/-! ## beamtimeSetup.py — object-graph reload -/

/-- Objects reconstructed by `load_yaml` (beamtimeSetup.py line 189).
The domain constructors live in `xpdacq.beamtime`, outside this excerpt.
Modelled from the spec: `Beamtime.from_yaml` rebuilds a beamtime from its
mapping document; `Sample.from_yaml`/`ScanPlan.from_yaml` rebuild a
sample/scan-plan from its two-element list document — the object's own
metadata mapping is the first element — and record the owning beamtime
they were passed (possibly `None`). -/
inductive LoadedObj where
  | bt (kvs : List (String × Yaml))
  | sample (kvs : List (String × Yaml)) (owner : Option LoadedObj)
  | scanplan (kvs : List (String × Yaml)) (owner : Option LoadedObj)

/-- Lookup in the known-UID registry (`known_uids.get(...)`), keyed by
the parsed uid value. -/
def yLookup (known : List (Yaml × LoadedObj)) (k : Yaml) : Option LoadedObj :=
  match known with
  | [] => none
  | (k', v) :: rest => if yamlBeq k' k then some v else yLookup rest k

/-- Write to the known-UID registry (`known_uids[uid] = obj`), with the
in-place-update-or-append dict semantics. -/
def ySet (known : List (Yaml × LoadedObj)) (k : Yaml) (v : LoadedObj) :
    List (Yaml × LoadedObj) :=
  match known with
  | [] => [(k, v)]
  | (k', v') :: rest =>
    if yamlBeq k' k then (k', v) :: rest else (k', v') :: ySet rest k v

/-- Metadata mapping of a sample/scan-plan document's first element; the
spec documents these first elements as mappings. -/
def asMapKvs : Yaml → List (String × Yaml)
  | .map kvs => kvs
  | _ => []

/-- `load_yaml` (beamtimeSetup.py lines 189-217) on the parsed document:
a mapping containing `bt_uid` rebuilds a beamtime and registers it under
that uid; a list whose first element contains `sa_uid` rebuilds a sample
owned by `known_uids.get(data[1]["bt_uid"])` and registers it under its
`sa_uid`; any other two-element list rebuilds a scan-plan the same way,
registered under its `sp_uid`; everything else raises `ValueError`
("File does not match a recognized specification"), except that
`data[0]` on an empty list raises `IndexError` first.  Stream rewinding
(line 201) has no counterpart on parsed documents. -/
def load_yaml (doc : Yaml) (known : List (Yaml × LoadedObj)) :
    Except PyErr (LoadedObj × List (Yaml × LoadedObj)) :=
  match doc with
  | .map kvs =>
    match alGet kvs "bt_uid" with
    | some uid =>
      let obj := LoadedObj.bt kvs
      .ok (obj, ySet known uid obj)
    | none => .error .valueError
  | .list [] => .error .indexError
  | .list (d0 :: rest) => do
    let hasSa ← yamlContains d0 "sa_uid"
    if hasSa then
      match rest with
      | [] => .error .indexError
      | d1 :: _ => do
        let btUid ← yamlGetKey d1 "bt_uid"
        let owner := yLookup known btUid
        let obj := LoadedObj.sample (asMapKvs d0) owner
        let saUid ← yamlGetKey d0 "sa_uid"
        .ok (obj, ySet known saUid obj)
    else if rest.length = 1 then
      match rest with
      | d1 :: _ => do
        let btUid ← yamlGetKey d1 "bt_uid"
        let owner := yLookup known btUid
        let obj := LoadedObj.scanplan (asMapKvs d0) owner
        let spUid ← yamlGetKey d0 "sp_uid"
        .ok (obj, ySet known spUid obj)
      | [] => .error .valueError
    else .error .valueError
  | _ => .error .valueError

/-- On-disk state consumed by `load_beamtime` (beamtimeSetup.py line
139): the parsed beamtime file, the files listed under `samples/` and
`scanplans/` with their parsed documents, and the parsed ordering
side-files when they exist (`None` models `os.path.isfile` false). -/
structure ReloadFS where
  btDoc : Yaml
  sampleFiles : List (String × Yaml)
  scanplanFiles : List (String × Yaml)
  scanplanOrder : Option Yaml
  sampleOrder : Option Yaml

/-- `.values()` of a parsed ordering side-file; a non-mapping document
has no `values` method. -/
def mapValues (d : Yaml) : Except PyErr (List Yaml) :=
  match d with
  | .map kvs => .ok (kvs.map (·.2))
  | _ => .error .attrError

/-- `list(order.values()).index(fn)`: position of the filename among the
ordering side-file's values; `ValueError` when absent. -/
def indexOfVal (vals : List Yaml) (fn : String) : Except PyErr Nat :=
  match vals.findIdx? (fun y => match y with | .str s => s = fn | _ => false) with
  | some i => .ok i
  | none => .error .valueError

/-- Stable insertion of a keyed file behind every file with a key less
than or equal to its own; folding it over a list reproduces Python's
stable `sorted(..., key=...)`. -/
def insertSorted (x : Nat × String × Yaml) :
    List (Nat × String × Yaml) → List (Nat × String × Yaml)
  | [] => [x]
  | y :: ys => if y.1 ≤ x.1 then y :: insertSorted x ys else x :: y :: ys

/-- Python `sorted(files, key=...)` with precomputed numeric keys. -/
def sortByIdx (l : List (Nat × String × Yaml)) : List (Nat × String × Yaml) :=
  l.foldl (fun acc x => insertSorted x acc) []

/-- One ordered reconstruction pass of `load_beamtime` (lines 167-174 for
scan-plans, 179-184 for samples): read the ordering side-file's values,
sort the category's filenames by their position among those values, and
`load_yaml` each file in that order against the registry, collecting the
objects reconstructed by the pass. -/
def loadPass (files : List (String × Yaml)) (orderDoc : Yaml)
    (known : List (Yaml × LoadedObj)) :
    Except PyErr (List LoadedObj × List (Yaml × LoadedObj)) := do
  let vals ← mapValues orderDoc
  let keyed ← files.mapM (fun fd => do
    let i ← indexOfVal vals fd.1
    pure (i, fd.1, fd.2))
  (sortByIdx keyed).foldlM
    (fun acc x => do
      let (obj, known') ← load_yaml x.2.2 acc.2
      pure (acc.1 ++ [obj], known'))
    (([], known) : List LoadedObj × List (Yaml × LoadedObj))

/-- `load_beamtime` (beamtimeSetup.py lines 139-186): load the beamtime
file into a fresh known-UID registry, then run the scan-plan pass if
`.scanplan_order.yml` exists, then the sample pass if
`.sample_order.yml` exists, and return the beamtime.  The model also
returns the objects reconstructed by each pass (the source's loop
effects), scan-plans first. -/
def load_beamtime (fs : ReloadFS) :
    Except PyErr (LoadedObj × List LoadedObj × List LoadedObj) := do
  let (bt, known0) ← load_yaml fs.btDoc []
  let (sps, known1) ←
    match fs.scanplanOrder with
    | none => Except.ok (([], known0) : List LoadedObj × List (Yaml × LoadedObj))
    | some od => loadPass fs.scanplanFiles od known0
  let (sas, _) ←
    match fs.sampleOrder with
    | none => Except.ok (([], known1) : List LoadedObj × List (Yaml × LoadedObj))
    | some od => loadPass fs.sampleFiles od known1
  .ok (bt, sps, sas)

/-! ## beamtimeSetup.py — session start -/

/-- Directory-role table read from the external configuration registry
(`glbl_dict` / `glbl`, defined outside this excerpt): the home
directory, the required subfolders (`allfolders`), the user-analysis
folder and the beamline-config path. -/
structure XpdConfig where
  home : String
  allfolders : List String
  usrAnalysisDir : String
  blconfigPath : String
  deriving DecidableEq, Repr

/-- Modelled from the spec: the external `Beamtime` constructor
(`xpdacq.beamtime`, not in this excerpt) records PI last name, SAF
number, experimenters and wavelength. -/
structure Beamtime where
  piLast : String
  safNum : String
  experimenters : List String
  wavelength : Option ℚ
  deriving DecidableEq, Repr

/-- Modelled from the spec: the external `ScanPlan` constructor records
the owning beamtime, a scan-type identifier and an exposure time. -/
structure ScanPlanObj where
  owner : Beamtime
  scanType : String
  expo : ℚ
  deriving DecidableEq, Repr

/-- Modelled from the spec: the identifier of the fixed "count"-style
scan type `ct` imported from `xpdacq.beamtime`. -/
def ctScanType : String := "ct"

/-- `EXPO_LIST` (beamtimeSetup.py line 35).  The Python floats are
carried as exact rationals; no arithmetic is ever performed on them. -/
def EXPO_LIST : List ℚ := [5, 0.1, 1, 10, 30, 60]

/-- Mutable environment visible to `_start_beamtime`: the session-state
flag `glbl['_active_beamtime']` (absent / true / false), the set of
existing directories, the contents listing of the home directory, the
process working directory, and the `ScanPlan` objects created so far. -/
structure SysState where
  activeBeamtime : Option Bool
  dirs : List String
  homeFiles : List String
  cwd : String
  scanPlans : List ScanPlanObj
  deriving DecidableEq, Repr

/-- `_make_clean_env` (beamtimeSetup.py line 94): `os.makedirs(d,
exist_ok=True)` for every required folder — idempotent creation. -/
def _make_clean_env (cfg : XpdConfig) (dirs : List String) : List String :=
  cfg.allfolders.foldl (fun ds d => if d ∈ ds then ds else ds ++ [d]) dirs

/-- `_start_beamtime` (beamtimeSetup.py lines 39-91).  Guards in source
order: the session-state flag identical to `False` raises `xpdAcqError`;
a missing home directory raises `RuntimeError`; a non-empty home
directory raises `FileExistsError`.  Each failing guard returns the
environment untouched (the raise precedes every mutation).  On success:
create the required folders, construct the beamtime from the supplied
metadata, `chdir` to home, create one `ScanPlan(bt, ct, expo)` per entry
of `EXPO_LIST`, set the flag to `True` and return the beamtime.  The
`Ni24.D` reference-file copy and the external `_load_beamline_config`
call touch nothing in the tracked environment and are modelled as inert. -/
def _start_beamtime (cfg : XpdConfig) (s : SysState)
    (piLast safNum : String) (experimenters : List String)
    (wavelength : Option ℚ) : SysState × Except PyErr Beamtime :=
  if s.activeBeamtime = some false then
    (s, .error .xpdAcqError)
  else if cfg.home ∉ s.dirs then
    (s, .error .runtimeError)
  else if s.homeFiles ≠ [] then
    (s, .error .fileExistsError)
  else
    let bt : Beamtime := ⟨piLast, safNum, experimenters, wavelength⟩
    ({ s with
        dirs := _make_clean_env cfg s.dirs,
        cwd := cfg.home,
        scanPlans := s.scanPlans ++ EXPO_LIST.map (fun e => ⟨bt, ctScanType, e⟩),
        activeBeamtime := some true },
     .ok bt)

/-! ## beamtimeSetup.py — end-of-session archive naming -/

/-- Python `str()` of the scalar metadata values archive naming feeds on;
the textual form of containers is never exercised by the archive-name
construction and is rendered opaquely. -/
def pyStr : Yaml → String
  | .null => "None"
  | .bool b => if b then "True" else "False"
  | .int n => toString n
  | .str s => s
  | .list _ => "<list>"
  | .map _ => "<dict>"

/-- Python `s.strip()`: drop leading and trailing whitespace. -/
def pyStrip (s : String) : String :=
  String.mk (((s.data.dropWhile Char.isWhitespace).reverse.dropWhile
    Char.isWhitespace).reverse)

/-- Python `s.replace(" ", "")`: removing every occurrence of the
one-character pattern is removing every space. -/
def removeSpaces (s : String) : String :=
  String.mk (s.data.filter (fun c => c ≠ ' '))

/-- `_clean_info` (beamtimeSetup.py line 266): stringify, strip
surrounding whitespace, remove every embedded space. -/
def _clean_info (y : Yaml) : String :=
  removeSpaces (pyStrip (pyStr y))

/-- `_required_info` (beamtimeSetup.py line 234). -/
def _required_info : List String := ["bt_piLast", "bt_safN", "bt_uid"]

/-- Python `sep.join(parts)`. -/
def pyJoin (sep : String) : List String → String
  | [] => ""
  | [x] => x
  | x :: xs => x ++ sep ++ pyJoin sep xs

/-- `_load_bt_info` (beamtimeSetup.py lines 271-287): read each required
field from the beamtime's metadata mapping — a missing field prints a
warning and terminates the process (`sys.exit`) — clean each value,
append the `strftime` timestamp (supplied here, since wall-clock time is
external), and join everything with underscores. -/
def _load_bt_info (bt : List (String × Yaml)) (required : List String)
    (timestamp : String) : Except PyErr String := do
  let infos ← required.mapM (fun el =>
    match alGet bt el with
    | none => Except.error PyErr.systemExit
    | some v => Except.ok (_clean_info v))
  Except.ok (pyJoin "_" (infos ++ [timestamp]))

/-- True exactly on parsed list documents (`isinstance(maps, list)`). -/
def yamlIsList : Yaml → Bool
  | .list _ => true
  | _ => false

/-! ## Claims -/

/-- C6: for beamtime metadata PI last name `"Smith "` (trailing space),
SAF number `300123` and unique id `abcdef1234`, `_load_bt_info`
stringifies, strips and despaces each required field and joins them with
underscores, so that — whatever timestamp `strftime` appends — the
result is exactly `Smith_300123_abcdef1234` followed by `_` and the
timestamp. -/
theorem c6_archive_name (ts : String) :
    _load_bt_info
      [("bt_piLast", .str "Smith "), ("bt_safN", .int 300123),
        ("bt_uid", .str "abcdef1234")]
      _required_info ts
      = .ok ("Smith_300123_abcdef1234_" ++ ts) := rfl

/-- C7: `regularize_dict_key` applied to `{"a.b": {"c.d": 1}}` with
target `.` and replacement `_` produces exactly `{"a_b": {"c_d": 1}}`,
renaming the key at both nesting depths and keeping each value. -/
theorem c7_regularize_nested :
    regularize_dict_key '.' '_'
      (.cons "a.b" (.dict (.cons "c.d" (.leaf 1) .nil)) .nil)
      = .cons "a_b" (.dict (.cons "c_d" (.leaf 1) .nil)) .nil := rfl

/-- C2 counterexample: on an input whose parsed content is empty
(`None`), `RedisChainMap.from_yaml` does not return a chain map at all —
`redisdict.py` never imports `yaml`, so the very first statement of the
method raises `NameError` for the unresolved name. -/
theorem c2_from_yaml_counterexample :
    RedisChainMap.from_yaml .null = .error (.nameError "yaml") := rfl

/-- C2 amended: every `from_yaml` call fails with a `NameError` for the
unbound module name `yaml`.  In the body as written — reachable only if
that name resolved — an empty document would construct a chain map with
ONE empty underlying layer, not zero (`ChainMap.__init__` replaces an
empty layer list by `[{}]`), and a document that parses to a non-list
would fail with the `TypeError` of lines 121-125. -/
theorem c2_from_yaml_amended (doc bad : Yaml)
    (h1 : yamlIsList bad = false) (h2 : bad ≠ .null) :
    RedisChainMap.from_yaml doc = .error (.nameError "yaml")
    ∧ RedisChainMap.fromYamlLayers .null = .ok [[]]
    ∧ RedisChainMap.fromYamlLayers bad = .error .typeError := by
  refine ⟨rfl, rfl, ?_⟩
  cases bad <;> simp_all [RedisChainMap.fromYamlLayers, yamlIsList]

/-- C2 amended, witnessed at the parsed documents `None` and `3`. -/
theorem c2_from_yaml_amended_witness :
    RedisChainMap.from_yaml .null = .error (.nameError "yaml")
    ∧ RedisChainMap.fromYamlLayers .null = .ok [[]]
    ∧ RedisChainMap.fromYamlLayers (.int 3) = .error .typeError :=
  c2_from_yaml_amended .null (.int 3) rfl (by simp)

/-- C9: when `load_yaml` parses a sample document (two-element list whose
first element carries `sa_uid`) or a scan-plan document (other
two-element list, first element carrying `sp_uid`) whose back-reference
`bt_uid` is not in the known-UID registry, it does not fail: the object
is constructed with no owning beamtime (`known_uids.get` returned
`None`), registered under its own unique identifier, and returned. -/
theorem c9_load_yaml_unknown_backref
    (sad spd btd : List (String × Yaml)) (saUid spUid btUid : Yaml)
    (known : List (Yaml × LoadedObj))
    (hsa : alGet sad "sa_uid" = some saUid)
    (hsp0 : alGet spd "sa_uid" = none)
    (hsp : alGet spd "sp_uid" = some spUid)
    (hbt : alGet btd "bt_uid" = some btUid)
    (hk : yLookup known btUid = none) :
    load_yaml (.list [.map sad, .map btd]) known
      = .ok (.sample sad none, ySet known saUid (.sample sad none))
    ∧ load_yaml (.list [.map spd, .map btd]) known
      = .ok (.scanplan spd none, ySet known spUid (.scanplan spd none)) := by
  constructor <;>
    simp [load_yaml, yamlContains, alHasKey, hsa, hsp0, hsp, hbt, hk,
      yamlGetKey, asMapKvs, bind, Except.bind]

/-- C9 witnessed on concrete sample and scan-plan documents with an
empty known-UID registry. -/
theorem c9_load_yaml_unknown_backref_witness :
    load_yaml (.list [.map [("sa_uid", .str "S1")], .map [("bt_uid", .str "B1")]]) []
      = .ok (.sample [("sa_uid", .str "S1")] none,
          [(.str "S1", .sample [("sa_uid", .str "S1")] none)])
    ∧ load_yaml (.list [.map [("sp_uid", .str "P1")], .map [("bt_uid", .str "B1")]]) []
      = .ok (.scanplan [("sp_uid", .str "P1")] none,
          [(.str "P1", .scanplan [("sp_uid", .str "P1")] none)]) :=
  c9_load_yaml_unknown_backref
    [("sa_uid", .str "S1")] [("sp_uid", .str "P1")] [("bt_uid", .str "B1")]
    (.str "S1") (.str "P1") (.str "B1") [] rfl rfl rfl rfl rfl

/-- Idempotent `makedirs` folding: every directory that was already
present, or that the fold is asked to create, is present afterwards. -/
theorem mem_foldl_makedirs (l : List String) (init : List String)
    (d : String) (h : d ∈ l ∨ d ∈ init) :
    d ∈ l.foldl (fun ds x => if x ∈ ds then ds else ds ++ [x]) init := by
  induction l generalizing init with
  | nil => simpa using h
  | cons x xs ih =>
    simp only [List.foldl_cons]
    apply ih
    rcases h with h | h
    · rcases List.mem_cons.mp h with rfl | h
      · right
        by_cases hx : d ∈ init <;> simp [hx]
      · exact Or.inl h
    · right
      by_cases hx : x ∈ init <;> simp [hx, h]

/-- C3: `_start_beamtime` fails with the `xpdAcqError` guard error
exactly when the session-state flag `glbl['_active_beamtime']` is the
explicit value `False`; when the flag is absent or `True` the call gets
past this guard (any failure is a different error), and the
guard-failing call leaves the environment untouched — no directory is
created and no other tracked effect happens. -/
theorem c3_start_guard (cfg : XpdConfig) (s : SysState)
    (piLast safNum : String) (exps : List String) (wl : Option ℚ) :
    ((_start_beamtime cfg s piLast safNum exps wl).2 = .error .xpdAcqError
      ↔ s.activeBeamtime = some false)
    ∧ (s.activeBeamtime = some false →
        (_start_beamtime cfg s piLast safNum exps wl).1 = s) := by
  by_cases h1 : s.activeBeamtime = some false
  · simp [_start_beamtime, h1]
  · by_cases h2 : cfg.home ∈ s.dirs
    · by_cases h3 : s.homeFiles = [] <;>
        simp [_start_beamtime, h1, h2, h3]
    · simp [_start_beamtime, h1, h2]

/-- C3 witnessed at a state whose session flag is the explicit `False`. -/
theorem c3_start_guard_witness :
    (((_start_beamtime ⟨"/xpdUser", ["/xpdUser/a"], "/xpdUser/ua", "/cfg"⟩
        ⟨some false, ["/xpdUser"], [], "/", []⟩ "Smith" "300123" [] none).2
      = .error .xpdAcqError)
      ↔ (⟨some false, ["/xpdUser"], [], "/", []⟩ : SysState).activeBeamtime
          = some false)
    ∧ ((⟨some false, ["/xpdUser"], [], "/", []⟩ : SysState).activeBeamtime
          = some false →
        (_start_beamtime ⟨"/xpdUser", ["/xpdUser/a"], "/xpdUser/ua", "/cfg"⟩
          ⟨some false, ["/xpdUser"], [], "/", []⟩ "Smith" "300123" [] none).1
          = ⟨some false, ["/xpdUser"], [], "/", []⟩) :=
  c3_start_guard ⟨"/xpdUser", ["/xpdUser/a"], "/xpdUser/ua", "/cfg"⟩
    ⟨some false, ["/xpdUser"], [], "/", []⟩ "Smith" "300123" [] none

/-- C4: whenever `_start_beamtime` returns successfully, every configured
required subfolder exists in the resulting environment, the
session-state flag reads `True`, exactly six new `ScanPlan` objects were
created — one per exposure time of `EXPO_LIST = [5, 0.1, 1, 10, 30, 60]`,
all with the count-style scan type `ct` — and the returned value is the
beamtime constructed from the supplied metadata. -/
theorem c4_start_success (cfg : XpdConfig) (s s' : SysState)
    (piLast safNum : String) (exps : List String) (wl : Option ℚ)
    (bt : Beamtime)
    (h : _start_beamtime cfg s piLast safNum exps wl = (s', .ok bt)) :
    (∀ d ∈ cfg.allfolders, d ∈ s'.dirs)
    ∧ s'.activeBeamtime = some true
    ∧ s'.scanPlans
        = s.scanPlans ++ EXPO_LIST.map (fun e => ⟨bt, ctScanType, e⟩)
    ∧ (EXPO_LIST.map (fun e => (⟨bt, ctScanType, e⟩ : ScanPlanObj))).length = 6
    ∧ (∀ p ∈ EXPO_LIST.map (fun e => (⟨bt, ctScanType, e⟩ : ScanPlanObj)),
        p.scanType = ctScanType)
    ∧ bt = ⟨piLast, safNum, exps, wl⟩ := by
  by_cases h1 : s.activeBeamtime = some false
  · simp [_start_beamtime, h1] at h
  by_cases h2 : cfg.home ∈ s.dirs
  swap
  · simp [_start_beamtime, h1, h2] at h
  by_cases h3 : s.homeFiles = []
  swap
  · simp [_start_beamtime, h1, h2, h3] at h
  unfold _start_beamtime at h
  rw [if_neg h1, if_neg (not_not_intro h2), if_neg (fun hne => hne h3)] at h
  injection h with hs' hbt
  injection hbt with hbt
  subst hbt
  subst hs'
  refine ⟨?_, rfl, rfl, rfl, ?_, rfl⟩
  · intro d hd
    exact mem_foldl_makedirs cfg.allfolders s.dirs d (Or.inl hd)
  · intro p hp
    simp only [List.mem_map] at hp
    obtain ⟨e, _, rfl⟩ := hp
    rfl

/-- C4 witnessed at a concrete environment where the start succeeds. -/
theorem c4_start_success_witness :
    (∀ d ∈ (⟨"/xpdUser", ["/xpdUser/a", "/xpdUser/b"], "/xpdUser/ua", "/cfg"⟩
        : XpdConfig).allfolders,
      d ∈ (⟨some true, ["/xpdUser", "/xpdUser/a", "/xpdUser/b"], [], "/xpdUser",
          EXPO_LIST.map (fun e =>
            ⟨⟨"Smith", "300123", [], none⟩, ctScanType, e⟩)⟩ : SysState).dirs)
    ∧ (⟨some true, ["/xpdUser", "/xpdUser/a", "/xpdUser/b"], [], "/xpdUser",
          EXPO_LIST.map (fun e =>
            ⟨⟨"Smith", "300123", [], none⟩, ctScanType, e⟩)⟩ : SysState).activeBeamtime
        = some true
    ∧ (⟨some true, ["/xpdUser", "/xpdUser/a", "/xpdUser/b"], [], "/xpdUser",
          EXPO_LIST.map (fun e =>
            ⟨⟨"Smith", "300123", [], none⟩, ctScanType, e⟩)⟩ : SysState).scanPlans
        = (⟨none, ["/xpdUser"], [], "/", []⟩ : SysState).scanPlans
            ++ EXPO_LIST.map (fun e =>
              ⟨⟨"Smith", "300123", [], none⟩, ctScanType, e⟩)
    ∧ (EXPO_LIST.map (fun e =>
        (⟨⟨"Smith", "300123", [], none⟩, ctScanType, e⟩ : ScanPlanObj))).length = 6
    ∧ (∀ p ∈ EXPO_LIST.map (fun e =>
        (⟨⟨"Smith", "300123", [], none⟩, ctScanType, e⟩ : ScanPlanObj)),
        p.scanType = ctScanType)
    ∧ (⟨"Smith", "300123", [], none⟩ : Beamtime)
        = ⟨"Smith", "300123", [], none⟩ :=
  c4_start_success
    ⟨"/xpdUser", ["/xpdUser/a", "/xpdUser/b"], "/xpdUser/ua", "/cfg"⟩
    ⟨none, ["/xpdUser"], [], "/", []⟩
    ⟨some true, ["/xpdUser", "/xpdUser/a", "/xpdUser/b"], [], "/xpdUser",
      EXPO_LIST.map (fun e => ⟨⟨"Smith", "300123", [], none⟩, ctScanType, e⟩)⟩
    "Smith" "300123" [] none ⟨"Smith", "300123", [], none⟩ rfl

/-- C5: in a directory-based reload, a category (samples or scan-plans)
whose ordering side-file does not exist reconstructs zero objects in
that category's pass, and when both side-files are missing the beamtime
itself is still loaded from `bt_bt.yml` and returned. -/
theorem c5_reload_missing_order_files (fs : ReloadFS) (bt0 : LoadedObj)
    (sps sas : List LoadedObj) (kvs : List (String × Yaml)) (uid : Yaml)
    (h : load_beamtime fs = .ok (bt0, sps, sas))
    (hbt : fs.btDoc = .map kvs)
    (huid : alGet kvs "bt_uid" = some uid) :
    (fs.scanplanOrder = none → sps = [])
    ∧ (fs.sampleOrder = none → sas = [])
    ∧ (fs.scanplanOrder = none → fs.sampleOrder = none →
        load_beamtime fs = .ok (.bt kvs, [], [])) := by
  have hload : load_yaml fs.btDoc [] = .ok (.bt kvs, [(uid, .bt kvs)]) := by
    rw [hbt]; simp [load_yaml, huid, ySet]
  refine ⟨?_, ?_, ?_⟩
  · intro hsp
    rw [load_beamtime] at h
    simp only [hload, hsp, bind, Except.bind] at h
    cases hsa2 : fs.sampleOrder with
    | none =>
      rw [hsa2] at h
      simp only [Except.ok.injEq, Prod.mk.injEq] at h
      exact h.2.1.symm
    | some od =>
      rw [hsa2] at h
      dsimp only at h
      cases hlp : loadPass fs.sampleFiles od [(uid, .bt kvs)] with
      | error e => rw [hlp] at h; exact absurd h (by simp)
      | ok pr =>
        rw [hlp] at h
        simp only [Except.ok.injEq, Prod.mk.injEq] at h
        exact h.2.1.symm
  · intro hsa
    rw [load_beamtime] at h
    simp only [hload, hsa, bind, Except.bind] at h
    cases hsp2 : fs.scanplanOrder with
    | none =>
      rw [hsp2] at h
      simp only [Except.ok.injEq, Prod.mk.injEq] at h
      exact h.2.2.symm
    | some od =>
      rw [hsp2] at h
      dsimp only at h
      cases hlp : loadPass fs.scanplanFiles od [(uid, .bt kvs)] with
      | error e => rw [hlp] at h; exact absurd h (by simp)
      | ok pr =>
        rw [hlp] at h
        simp only [Except.ok.injEq, Prod.mk.injEq] at h
        exact h.2.2.symm
  · intro hsp hsa
    rw [load_beamtime]
    simp only [hload, hsp, hsa, bind, Except.bind]

/-- C5 witnessed at a reload state with a well-formed beamtime file, one
file in each category directory and neither ordering side-file. -/
theorem c5_reload_missing_order_files_witness :
    ((⟨.map [("bt_uid", .str "B1")], [("f1", .null)], [("g1", .null)],
        none, none⟩ : ReloadFS).scanplanOrder = none → ([] : List LoadedObj) = [])
    ∧ ((⟨.map [("bt_uid", .str "B1")], [("f1", .null)], [("g1", .null)],
        none, none⟩ : ReloadFS).sampleOrder = none → ([] : List LoadedObj) = [])
    ∧ ((⟨.map [("bt_uid", .str "B1")], [("f1", .null)], [("g1", .null)],
        none, none⟩ : ReloadFS).scanplanOrder = none →
       (⟨.map [("bt_uid", .str "B1")], [("f1", .null)], [("g1", .null)],
        none, none⟩ : ReloadFS).sampleOrder = none →
        load_beamtime ⟨.map [("bt_uid", .str "B1")], [("f1", .null)],
          [("g1", .null)], none, none⟩
          = .ok (.bt [("bt_uid", .str "B1")], [], [])) :=
  c5_reload_missing_order_files
    ⟨.map [("bt_uid", .str "B1")], [("f1", .null)], [("g1", .null)], none, none⟩
    (.bt [("bt_uid", .str "B1")]) [] [] [("bt_uid", .str "B1")] (.str "B1")
    rfl rfl rfl

/-- Folding the flushing `__setitem__` of `RedisChainMap` over a pair
list (the body of `MutableMapping.update`): each pair lands in the first
layer and costs one flush. -/
theorem chain_foldlM_setitem (kvs : List (String × Yaml))
    (m : List (String × Yaml)) (rest : List (List (String × Yaml)))
    (fc : Nat) :
    kvs.foldlM (fun acc kv => RedisChainMap.setitem acc kv.1 kv.2)
        (⟨m :: rest, fc⟩ : RedisChainMap)
      = .ok ⟨(kvs.foldl (fun mm kv => alSet mm kv.1 kv.2) m) :: rest,
          fc + kvs.length⟩ := by
  induction kvs generalizing m fc with
  | nil => simp [pure, Except.pure]
  | cons kv kvs ih =>
    rw [List.foldlM_cons]
    have h1 : RedisChainMap.setitem ⟨m :: rest, fc⟩ kv.1 kv.2
        = .ok ⟨alSet m kv.1 kv.2 :: rest, fc + 1⟩ := rfl
    rw [h1]
    show Except.bind _ _ = _
    rw [Except.bind]
    rw [ih]
    have h2 : fc + 1 + kvs.length = fc + (kv :: kvs).length := by
      simp only [List.length_cons]
      omega
    rw [h2, List.foldl_cons]

/-- C1 counterexample: `update` is a single mutating operation, yet on
the one-layer chain map `RedisChainMap([])` with flush count 0,
`update({"a": 1})` leaves flush count 2, not 1 — `MutableMapping.update`
assigns through the flushing `__setitem__` once per key before
`_RedisDictLike.update` flushes again. -/
theorem c1_flush_counterexample :
    RedisChainMap.update ⟨[[]], 0⟩ [("a", .int 1)]
      = .ok ⟨[[("a", .int 1)]], 2⟩ := rfl

/-- C1 amended: every successful mutating operation performs the
underlying container operation and flushes at least once; the flush
count is exactly one for all `RedisDict` operations and for
`RedisChainMap` item assignment, item deletion, clear, pop and pop-item,
while `RedisChainMap.update` flushes once per assigned key plus once
(`ChainMap` inherits `MutableMapping.update`, which assigns through the
overridden flushing `__setitem__`) and `RedisChainMap.setdefault`
flushes twice when the key is absent (once when present); `copy()`
always fails with `NotImplementedError` on both types. -/
theorem c1_mutators_flush (d : RedisDict) (c : RedisChainMap)
    (k ka kp cp ca : String) (v wP wC : Yaml)
    (kvs : List (String × Yaml))
    (m : List (String × Yaml)) (rest : List (List (String × Yaml)))
    (kvL kvC : String × Yaml)
    (hm : c.maps = m :: rest)
    (hdp : alGet d.data kp = some wP)
    (hda : alGet d.data ka = none)
    (hdl : d.data.getLast? = some kvL)
    (hcp : alGet m cp = some wC)
    (hcl : m.getLast? = some kvC)
    (hga : c.getval ca = none) :
    d.setitem k v = ⟨alSet d.data k v, d.flushCount + 1⟩
    ∧ d.delitem kp = .ok ⟨alRemove d.data kp, d.flushCount + 1⟩
    ∧ d.clear = ⟨[], d.flushCount + 1⟩
    ∧ d.pop kp = .ok (wP, ⟨alRemove d.data kp, d.flushCount + 1⟩)
    ∧ d.popitem = .ok (kvL, ⟨d.data.dropLast, d.flushCount + 1⟩)
    ∧ d.update kvs
        = ⟨kvs.foldl (fun mm kv => alSet mm kv.1 kv.2) d.data,
            d.flushCount + 1⟩
    ∧ d.setdefault kp v = (wP, ⟨d.data, d.flushCount + 1⟩)
    ∧ d.setdefault ka v = (v, ⟨d.data ++ [(ka, v)], d.flushCount + 1⟩)
    ∧ d.copy = .error .notImplError
    ∧ c.setitem k v = .ok ⟨alSet m k v :: rest, c.flushCount + 1⟩
    ∧ c.delitem cp = .ok ⟨alRemove m cp :: rest, c.flushCount + 1⟩
    ∧ c.clear = .ok ⟨[] :: rest, c.flushCount + 1⟩
    ∧ c.pop cp = .ok (wC, ⟨alRemove m cp :: rest, c.flushCount + 1⟩)
    ∧ c.popitem = .ok (kvC, ⟨m.dropLast :: rest, c.flushCount + 1⟩)
    ∧ c.update kvs
        = .ok ⟨(kvs.foldl (fun mm kv => alSet mm kv.1 kv.2) m) :: rest,
            c.flushCount + kvs.length + 1⟩
    ∧ c.setdefault cp v = .ok (wC, ⟨c.maps, c.flushCount + 1⟩)
    ∧ c.setdefault ca v = .ok (v, ⟨alSet m ca v :: rest, c.flushCount + 2⟩)
    ∧ c.copy = .error .notImplError := by
  obtain ⟨dd, dfc⟩ := d
  obtain ⟨maps, cfc⟩ := c
  simp only [RedisChainMap.maps] at hm
  subst hm
  simp only [RedisDict.data, RedisDict.flushCount, RedisChainMap.flushCount,
    RedisChainMap.maps, RedisChainMap.getval] at *
  refine ⟨rfl, ?_, rfl, ?_, ?_, rfl, ?_, ?_, rfl, rfl, ?_, rfl, ?_, ?_, ?_,
    ?_, ?_, rfl⟩
  · simp [RedisDict.delitem, RedisDict.flush, alHasKey, hdp]
  · simp [RedisDict.pop, RedisDict.flush, hdp]
  · simp [RedisDict.popitem, RedisDict.flush, hdl]
  · simp [RedisDict.setdefault, RedisDict.flush, hdp]
  · simp [RedisDict.setdefault, RedisDict.flush, hda]
  · simp [RedisChainMap.delitem, RedisChainMap.flush, alHasKey, hcp]
  · simp [RedisChainMap.pop, RedisChainMap.flush, hcp]
  · simp [RedisChainMap.popitem, RedisChainMap.flush, hcl]
  · simp only [RedisChainMap.update, bind, Except.bind, chain_foldlM_setitem,
      RedisChainMap.flush]
  · have : RedisChainMap.getval.go (m :: rest) cp = some wC := by
      simp [RedisChainMap.getval.go, hcp]
    simp [RedisChainMap.setdefault, RedisChainMap.getval, this,
      RedisChainMap.flush]
  · have : RedisChainMap.getval.go (m :: rest) ca = none := hga
    simp [RedisChainMap.setdefault, RedisChainMap.getval, this,
      RedisChainMap.setitem, RedisChainMap.flush, bind, Except.bind]

/-- C1 amended, witnessed on a one-entry `RedisDict` and a two-layer
`RedisChainMap`, with one present key, one absent key and a one-pair
update argument. -/
theorem c1_mutators_flush_witness :
    RedisDict.setitem ⟨[("p", Yaml.int 7)], 0⟩ "x" (Yaml.int 5)
      = ⟨alSet [("p", Yaml.int 7)] "x" (Yaml.int 5), 0 + 1⟩
    ∧ RedisDict.delitem ⟨[("p", Yaml.int 7)], 0⟩ "p"
      = .ok ⟨alRemove [("p", Yaml.int 7)] "p", 0 + 1⟩
    ∧ RedisDict.clear ⟨[("p", Yaml.int 7)], 0⟩ = ⟨[], 0 + 1⟩
    ∧ RedisDict.pop ⟨[("p", Yaml.int 7)], 0⟩ "p"
      = .ok (Yaml.int 7, ⟨alRemove [("p", Yaml.int 7)] "p", 0 + 1⟩)
    ∧ RedisDict.popitem ⟨[("p", Yaml.int 7)], 0⟩
      = .ok (("p", Yaml.int 7), ⟨[("p", Yaml.int 7)].dropLast, 0 + 1⟩)
    ∧ RedisDict.update ⟨[("p", Yaml.int 7)], 0⟩ [("u", Yaml.int 1)]
      = ⟨[("u", Yaml.int 1)].foldl (fun mm kv => alSet mm kv.1 kv.2)
          [("p", Yaml.int 7)], 0 + 1⟩
    ∧ RedisDict.setdefault ⟨[("p", Yaml.int 7)], 0⟩ "p" (Yaml.int 5)
      = (Yaml.int 7, ⟨[("p", Yaml.int 7)], 0 + 1⟩)
    ∧ RedisDict.setdefault ⟨[("p", Yaml.int 7)], 0⟩ "a" (Yaml.int 5)
      = (Yaml.int 5, ⟨[("p", Yaml.int 7)] ++ [("a", Yaml.int 5)], 0 + 1⟩)
    ∧ RedisDict.copy ⟨[("p", Yaml.int 7)], 0⟩ = .error .notImplError
    ∧ RedisChainMap.setitem ⟨[[("q", Yaml.int 8)], [("z", Yaml.int 9)]], 0⟩ "x" (Yaml.int 5)
      = .ok ⟨alSet [("q", Yaml.int 8)] "x" (Yaml.int 5) :: [[("z", Yaml.int 9)]], 0 + 1⟩
    ∧ RedisChainMap.delitem ⟨[[("q", Yaml.int 8)], [("z", Yaml.int 9)]], 0⟩ "q"
      = .ok ⟨alRemove [("q", Yaml.int 8)] "q" :: [[("z", Yaml.int 9)]], 0 + 1⟩
    ∧ RedisChainMap.clear ⟨[[("q", Yaml.int 8)], [("z", Yaml.int 9)]], 0⟩
      = .ok ⟨[] :: [[("z", Yaml.int 9)]], 0 + 1⟩
    ∧ RedisChainMap.pop ⟨[[("q", Yaml.int 8)], [("z", Yaml.int 9)]], 0⟩ "q"
      = .ok (Yaml.int 8, ⟨alRemove [("q", Yaml.int 8)] "q" :: [[("z", Yaml.int 9)]], 0 + 1⟩)
    ∧ RedisChainMap.popitem ⟨[[("q", Yaml.int 8)], [("z", Yaml.int 9)]], 0⟩
      = .ok (("q", Yaml.int 8), ⟨[("q", Yaml.int 8)].dropLast :: [[("z", Yaml.int 9)]], 0 + 1⟩)
    ∧ RedisChainMap.update ⟨[[("q", Yaml.int 8)], [("z", Yaml.int 9)]], 0⟩ [("u", Yaml.int 1)]
      = .ok ⟨([("u", Yaml.int 1)].foldl (fun mm kv => alSet mm kv.1 kv.2)
          [("q", Yaml.int 8)]) :: [[("z", Yaml.int 9)]],
          0 + [("u", Yaml.int 1)].length + 1⟩
    ∧ RedisChainMap.setdefault ⟨[[("q", Yaml.int 8)], [("z", Yaml.int 9)]], 0⟩ "q" (Yaml.int 5)
      = .ok (Yaml.int 8,
          ⟨(⟨[[("q", Yaml.int 8)], [("z", Yaml.int 9)]], 0⟩ : RedisChainMap).maps, 0 + 1⟩)
    ∧ RedisChainMap.setdefault ⟨[[("q", Yaml.int 8)], [("z", Yaml.int 9)]], 0⟩ "w" (Yaml.int 5)
      = .ok (Yaml.int 5, ⟨alSet [("q", Yaml.int 8)] "w" (Yaml.int 5) :: [[("z", Yaml.int 9)]], 0 + 2⟩)
    ∧ RedisChainMap.copy ⟨[[("q", Yaml.int 8)], [("z", Yaml.int 9)]], 0⟩
      = .error .notImplError :=
  c1_mutators_flush ⟨[("p", .int 7)], 0⟩ ⟨[[("q", .int 8)], [("z", .int 9)]], 0⟩
    "x" "a" "p" "q" "w" (.int 5) (.int 7) (.int 8) [("u", .int 1)]
    [("q", .int 8)] [[("z", .int 9)]] ("p", .int 7) ("q", .int 8)
    rfl rfl rfl rfl rfl rfl rfl

/-- C8: on a chain map with at least one layer, each inherited mutating
operation among item assignment, item deletion, clear, pop and pop-item
rewrites only the first (highest-priority) layer: every successful call
returns a chain whose remaining layers are exactly the original ones. -/
theorem c8_first_layer_frame (c : RedisChainMap) (k kp : String) (v wC : Yaml)
    (m : List (String × Yaml)) (rest : List (List (String × Yaml)))
    (kvC : String × Yaml)
    (hm : c.maps = m :: rest)
    (hp : alGet m kp = some wC)
    (hl : m.getLast? = some kvC) :
    (∃ m1, c.setitem k v = .ok ⟨m1 :: rest, c.flushCount + 1⟩)
    ∧ (∃ m1, c.delitem kp = .ok ⟨m1 :: rest, c.flushCount + 1⟩)
    ∧ (∃ m1, c.clear = .ok ⟨m1 :: rest, c.flushCount + 1⟩)
    ∧ (∃ m1, c.pop kp = .ok (wC, ⟨m1 :: rest, c.flushCount + 1⟩))
    ∧ (∃ m1, c.popitem = .ok (kvC, ⟨m1 :: rest, c.flushCount + 1⟩)) := by
  obtain ⟨maps, fc⟩ := c
  simp only [RedisChainMap.maps] at hm
  subst hm
  refine ⟨⟨alSet m k v, rfl⟩, ⟨alRemove m kp, ?_⟩, ⟨[], rfl⟩,
    ⟨alRemove m kp, ?_⟩, ⟨m.dropLast, ?_⟩⟩
  · simp [RedisChainMap.delitem, RedisChainMap.flush, alHasKey, hp]
  · simp [RedisChainMap.pop, RedisChainMap.flush, hp]
  · simp [RedisChainMap.popitem, RedisChainMap.flush, hl]

/-- C8 witnessed on a two-layer chain map with a populated first layer. -/
theorem c8_first_layer_frame_witness :
    (∃ m1, RedisChainMap.setitem ⟨[[("q", Yaml.int 8)], [("z", Yaml.int 9)]], 0⟩
        "x" (Yaml.int 5) = .ok ⟨m1 :: [[("z", Yaml.int 9)]], 0 + 1⟩)
    ∧ (∃ m1, RedisChainMap.delitem ⟨[[("q", Yaml.int 8)], [("z", Yaml.int 9)]], 0⟩
        "q" = .ok ⟨m1 :: [[("z", Yaml.int 9)]], 0 + 1⟩)
    ∧ (∃ m1, RedisChainMap.clear ⟨[[("q", Yaml.int 8)], [("z", Yaml.int 9)]], 0⟩
        = .ok ⟨m1 :: [[("z", Yaml.int 9)]], 0 + 1⟩)
    ∧ (∃ m1, RedisChainMap.pop ⟨[[("q", Yaml.int 8)], [("z", Yaml.int 9)]], 0⟩
        "q" = .ok (Yaml.int 8, ⟨m1 :: [[("z", Yaml.int 9)]], 0 + 1⟩))
    ∧ (∃ m1, RedisChainMap.popitem ⟨[[("q", Yaml.int 8)], [("z", Yaml.int 9)]], 0⟩
        = .ok (("q", Yaml.int 8), ⟨m1 :: [[("z", Yaml.int 9)]], 0 + 1⟩)) :=
  c8_first_layer_frame ⟨[[("q", Yaml.int 8)], [("z", Yaml.int 9)]], 0⟩
    "x" "q" (Yaml.int 5) (Yaml.int 8) [("q", Yaml.int 8)] [[("z", Yaml.int 9)]]
    ("q", Yaml.int 8) rfl rfl rfl

/-- Membership of a key/value pair in an embedded dict's entry list. -/
def PyEntries.EntMem (k : String) (v : PyObj) : PyEntries → Prop
  | .nil => False
  | .cons k' v' rest => (k = k' ∧ v = v') ∨ EntMem k v rest

/-- Structural induction over entry lists alone (the nested value type
is carried opaquely, so the mutual eliminator is not needed). -/
theorem PyEntries.inductionOn (motive : PyEntries → Prop) (h0 : motive .nil)
    (h1 : ∀ k v rest, motive rest → motive (.cons k v rest)) :
    ∀ es, motive es
  | .nil => h0
  | .cons k v rest => h1 k v rest (inductionOn motive h0 h1 rest)

/-- Keys of a concatenation of entry lists. -/
theorem PyEntries.keys_append (a b : PyEntries) :
    (a.append b).keys = a.keys ++ b.keys := by
  induction a using PyEntries.inductionOn with
  | h0 => rfl
  | h1 k v rest ih => simp [PyEntries.append, PyEntries.keys, ih]

/-- Right identity of entry-list concatenation. -/
theorem PyEntries.append_nil (a : PyEntries) : a.append .nil = a := by
  induction a using PyEntries.inductionOn with
  | h0 => rfl
  | h1 k v rest ih => simp [PyEntries.append, ih]

/-- Associativity of entry-list concatenation. -/
theorem PyEntries.append_assoc (a b c : PyEntries) :
    (a.append b).append c = a.append (b.append c) := by
  induction a using PyEntries.inductionOn with
  | h0 => rfl
  | h1 k v rest ih => simp [PyEntries.append, ih]

/-- Setting a key that is absent from a dict appends the new entry at
the end (CPython insertion order). -/
theorem PyEntries.set_absent (es : PyEntries) (k : String) (val : PyObj)
    (h : k ∉ es.keys) : es.set k val = es.append (.cons k val .nil) := by
  induction es using PyEntries.inductionOn with
  | h0 => rfl
  | h1 k' v' rest ih =>
    simp only [PyEntries.keys, List.mem_cons, not_or] at h
    simp only [PyEntries.set, PyEntries.append,
      if_neg (fun hh : k' = k => h.1 hh.symm), ih h.2]

/-- The executable key-uniqueness check agrees with `List.Nodup`. -/
theorem listNodup_iff (l : List String) : listNodup l = true ↔ l.Nodup := by
  induction l with
  | nil => simp [listNodup]
  | cons x xs ih =>
    simp [listNodup, ih, List.nodup_cons, List.elem_iff]

/-- Replacing a character that does not occur in a string changes
nothing. -/
theorem replaceStr_eq_self (s : String) (t r : Char)
    (h : s.data.contains t = false) : replaceStr s t r = s := by
  obtain ⟨l⟩ := s
  simp only [replaceStr]
  congr 1
  induction l with
  | nil => rfl
  | cons c cs ih =>
    simp only [List.contains_cons, Bool.or_eq_false_iff,
      beq_eq_false_iff_ne, ne_eq] at h
    simp only [List.map_cons, if_neg (fun hh : c = t => h.1 hh.symm),
      ih h.2]

/-- Rotation behaviour of the rename loop when every key is already
clean and every value already regularized: each processed entry is
popped from the front of the unprocessed part of the live dict and
re-appended at its end, so running the loop over snapshot items `l`
with live dict `l ++ post` terminates in `post ++ l`. -/
theorem regLoop_rotate (t r : Char) (l : PyEntries) :
    ∀ (post : PyEntries),
      (l.append post).keys.Nodup →
      (∀ k v, PyEntries.EntMem k v l →
        replaceStr k t r = k ∧ regValue t r v = v) →
      regLoop t r (l.append post) l = post.append l := by
  induction l using PyEntries.inductionOn with
  | h0 =>
    intro post _ _
    show regLoop t r (PyEntries.nil.append post) .nil = post.append .nil
    rw [PyEntries.append_nil]
    rfl
  | h1 k v rest ih =>
    intro post hnd hpt
    obtain ⟨hkclean, hvfix⟩ := hpt k v (Or.inl ⟨rfl, rfl⟩)
    have hnd' : (k :: (rest.append post).keys).Nodup := by
      simpa [PyEntries.append, PyEntries.keys] using hnd
    have hkabs : k ∉ (rest.append post).keys :=
      (List.nodup_cons.mp hnd').1
    show regLoop t r ((PyEntries.cons k v rest).append post)
        (.cons k v rest) = post.append (.cons k v rest)
    rw [show (PyEntries.cons k v rest).append post
        = .cons k v (rest.append post) from rfl]
    rw [regLoop]
    rw [show (PyEntries.cons k v (rest.append post)).remove k
        = rest.append post by simp [PyEntries.remove]]
    rw [hkclean, hvfix, PyEntries.set_absent _ _ _ hkabs,
      PyEntries.append_assoc]
    have hnd2 : ((rest.append (post.append (.cons k v .nil))).keys).Nodup := by
      have hnd'' : (k :: (rest.keys ++ post.keys)).Nodup := by
        rwa [PyEntries.keys_append] at hnd'
      have hone : ((rest.keys ++ post.keys) ++ [k]).Nodup :=
        (List.perm_append_singleton k (rest.keys ++ post.keys)).symm.nodup hnd''
      rw [PyEntries.keys_append, PyEntries.keys_append]
      simpa [PyEntries.keys, List.append_assoc] using hone
    have hrec := ih (post.append (.cons k v .nil)) hnd2
      (fun k' v' hm => hpt k' v' (Or.inr hm))
    rw [hrec, PyEntries.append_assoc]
    rfl

mutual
/-- A value with unique keys at every depth and no occurrence of the
target character in any key is a fixed point of the regularization. -/
theorem regValue_fixpoint (t r : Char) :
    ∀ (o : PyObj), wfObj o = true → noTgtObj t o = true →
      regValue t r o = o
  | .leaf _, _, _ => rfl
  | .dict es, h1, h2 => by
    have hw : listNodup es.keys = true ∧ wfEnts es = true := by
      simpa [wfObj, Bool.and_eq_true] using h1
    have hpt := regEntries_pointwise t r es hw.2
      (by simpa [noTgtObj] using h2)
    have hnd : (es.append .nil).keys.Nodup := by
      rw [PyEntries.append_nil]
      exact (listNodup_iff es.keys).mp hw.1
    have hrot := regLoop_rotate t r es .nil hnd hpt
    rw [PyEntries.append_nil] at hrot
    show PyObj.dict (regLoop t r es es) = .dict es
    rw [hrot]
    rfl

/-- Pointwise form of `regValue_fixpoint` over the entries of a dict:
every key is already clean and every value already regularized. -/
theorem regEntries_pointwise (t r : Char) :
    ∀ (es : PyEntries), wfEnts es = true → noTgtEnts t es = true →
      ∀ k v, PyEntries.EntMem k v es →
        replaceStr k t r = k ∧ regValue t r v = v
  | .nil, _, _, _, _, hm => hm.elim
  | .cons k' v' rest, h1, h2, k, v, hm => by
    have h1' : wfObj v' = true ∧ wfEnts rest = true := by
      simpa [wfEnts, Bool.and_eq_true] using h1
    have h2' : (t ∉ k'.data ∧ noTgtObj t v' = true)
        ∧ noTgtEnts t rest = true := by
      simpa [noTgtEnts, Bool.and_eq_true, Bool.not_eq_true'] using h2
    rcases hm with ⟨hk, hv⟩ | hm
    · subst hk
      subst hv
      refine ⟨replaceStr_eq_self _ _ _ ?_,
        regValue_fixpoint t r v h1'.1 h2'.1.2⟩
      simpa using h2'.1.1
    · exact regEntries_pointwise t r rest h1'.2 h2'.2 k v hm
end

/-- C10: on a possibly nested mapping with unique keys in which no key
at any depth contains the target character, `regularize_dict_key`
leaves the mapping unchanged — every key still maps to the same value
at every depth. -/
theorem c10_regularize_clean_fixpoint (t r : Char) (es : PyEntries)
    (h1 : wfObj (.dict es) = true) (h2 : noTgtObj t (.dict es) = true) :
    regularize_dict_key t r es = es := by
  have hfix := regValue_fixpoint t r (.dict es) h1 h2
  have : PyObj.dict (regularize_dict_key t r es) = PyObj.dict es := hfix
  injection this

/-- C10 witnessed on the nested mapping `{"ab": {"cd": 1}}` with target
character `.`: the mapping is returned unchanged. -/
theorem c10_regularize_clean_fixpoint_witness :
    regularize_dict_key '.' '_'
      (.cons "ab" (.dict (.cons "cd" (.leaf 1) .nil)) .nil)
      = .cons "ab" (.dict (.cons "cd" (.leaf 1) .nil)) .nil :=
  c10_regularize_clean_fixpoint '.' '_'
    (.cons "ab" (.dict (.cons "cd" (.leaf 1) .nil)) .nil) rfl rfl

end Xpdacq
